import Mathlib

/-
Shallow embedding of the CalorieBuddy backend (src/backend/server.py).

Modelling conventions:
- Python floats are modelled as exact rationals (ℚ); every constant in the
  source (6.25, 1.2, 1.375, 1.55, 1.725, 1.9, 500, 2000, 0.5, ...) is exactly
  representable, so the arithmetic structure of the code is preserved.
- A Mongo document field that may be absent or JSON-null is modelled as
  Option (Option ℚ): none = key absent, some none = null, some (some v) = value.
  Python dict.get(k, d) returns d only when the key is absent; a present null
  comes back as None, and arithmetic on None raises TypeError.
- HTTPException is modelled as the HTTPError structure (status code + detail).
  The str() of a starlette HTTPException is "status: detail", which is what the
  blanket except-clauses embed into their 500 details. Non-HTTP Python
  exceptions caught by those clauses (TypeError from sum over None,
  JSONDecodeError from json.loads) are modelled with a fixed diagnostic detail
  string, since no claim depends on the exact exception message.
- The external LLM call is not modelled; the functions that consume its output
  take the response text as an argument and the JSON parser as a parameter
  (parseJson : String → Option J), since the claims about that code concern
  only the brace-finding extraction and the fallback behaviour, not the JSON
  grammar itself.
- The Mongo users collection is an association list keyed by the id field;
  update_one with a filter on id updates the first matching document, and its
  modified_count is 0 when no document matched or when the matched document is
  unchanged by the $set (Mongo semantics).
-/

/-- HTTP error as raised by FastAPI HTTPException: status code and detail. -/
structure HTTPError where
  status : Nat
  detail : String
deriving DecidableEq, Repr

/-- Rendering of str(HTTPException) in starlette: "status: detail". -/
def strHTTP (e : HTTPError) : String :=
  toString e.status ++ ": " ++ e.detail

/-- Request body of POST/PUT user routes (pydantic model UserCreate in
server.py): all profile attributes minus the derived daily_calorie_target,
which is not client-settable. -/
structure UserCreate where
  name : String
  email : String
  age : ℤ
  gender : String
  height : ℚ
  weight : ℚ
  activity_level : String
  goal : String
  goal_weight : Option ℚ
deriving DecidableEq, Repr

/-- Stored user document (pydantic model User in server.py, minus created_at,
which no claim touches). daily_calorie_target is Option (Option ℚ) because a
stored document may lack the key entirely (none), hold JSON null (some none),
or hold a number (some (some v)); documents written by this app always hold a
number. -/
structure UserDoc where
  id : String
  name : String
  email : String
  age : ℤ
  gender : String
  height : ℚ
  weight : ℚ
  activity_level : String
  goal : String
  goal_weight : Option ℚ
  daily_calorie_target : Option (Option ℚ)
deriving DecidableEq, Repr

/-- The users collection: documents in insertion order. -/
abbrev Store : Type := List (String × UserDoc)

/-- Python str.lower restricted to ASCII, written over the character list so
that it evaluates by kernel reduction (String.toLower itself does not); it
agrees with str.lower on every ASCII string. -/
def strLower (s : String) : String :=
  String.mk (s.toList.map Char.toLower)

/-- db.users.find_one on the id field: first document whose key matches. -/
def storeFind : Store → String → Option UserDoc
  | [], _ => none
  | (k, v) :: rest, uid => if k = uid then some v else storeFind rest uid

/-- Replace the first document whose key matches (effect of update_one). -/
def storeReplace : Store → String → UserDoc → Store
  | [], _, _ => []
  | (k, v) :: rest, uid, d =>
      if k = uid then (k, d) :: rest else (k, v) :: storeReplace rest uid d

/-- calculate_bmr from server.py: Mifflin-St Jeor equation. The gender test is
gender.lower() == male in Python; String.toLower agrees with str.lower on the
ASCII strings used for genders. -/
def calculate_bmr (weight height : ℚ) (age : ℤ) (gender : String) : ℚ :=
  if strLower gender = "male" then
    10 * weight + 6.25 * height - 5 * (age : ℚ) + 5
  else
    10 * weight + 6.25 * height - 5 * (age : ℚ) - 161

/-- The activity_multipliers dict from calculate_daily_calories. -/
def activity_multipliers : List (String × ℚ) :=
  [("sedentary", 1.2), ("lightly_active", 1.375), ("moderately_active", 1.55),
   ("very_active", 1.725), ("extra_active", 1.9)]

/-- calculate_daily_calories from server.py: dict .get with default 1.2, then
the goal adjustment. -/
def calculate_daily_calories (bmr : ℚ) (activity_level goal : String) : ℚ :=
  let tdee := bmr * ((activity_multipliers.lookup activity_level).getD 1.2)
  if goal = "lose_weight" then tdee - 500
  else if goal = "gain_weight" then tdee + 500
  else tdee

/-- Modelled from the spec wording of claim C2 (the activity-factor table as an
explicit case split followed by the goal adjustment), to be compared with the
source-derived calculate_daily_calories. -/
def dailyCaloriesFromSpec (bmr : ℚ) (activity_level goal : String) : ℚ :=
  let factor : ℚ :=
    if activity_level = "sedentary" then 1.2
    else if activity_level = "lightly_active" then 1.375
    else if activity_level = "moderately_active" then 1.55
    else if activity_level = "very_active" then 1.725
    else if activity_level = "extra_active" then 1.9
    else 1.2
  let base := bmr * factor
  if goal = "lose_weight" then base - 500
  else if goal = "gain_weight" then base + 500
  else base

/-- Composition used by both create_user and update_user to derive the stored
daily calorie target from the submitted attributes. -/
def targetOf (u : UserCreate) : ℚ :=
  calculate_daily_calories (calculate_bmr u.weight u.height u.age u.gender)
    u.activity_level u.goal

/-- create_user from server.py: compute BMR and target from the request body,
build the User document with daily_calorie_target set to the computed value,
insert it, and return it. The generated uuid is passed in as newId. -/
def create_user (store : Store) (u : UserCreate) (newId : String) :
    UserDoc × Store :=
  let doc : UserDoc :=
    ⟨newId, u.name, u.email, u.age, u.gender, u.height, u.weight,
      u.activity_level, u.goal, u.goal_weight, some (some (targetOf u))⟩
  (doc, store ++ [(newId, doc)])

/-- get_user from server.py: find_one on id, 404 when absent. -/
def get_user (store : Store) (user_id : String) : Except HTTPError UserDoc :=
  match storeFind store user_id with
  | none => .error ⟨404, "User not found"⟩
  | some u => .ok u

/-- Effect of the $set document built in update_user on a stored document:
every UserCreate field plus the recomputed daily_calorie_target; the id (and
created_at) are untouched. -/
def applySet (doc : UserDoc) (u : UserCreate) (target : ℚ) : UserDoc :=
  ⟨doc.id, u.name, u.email, u.age, u.gender, u.height, u.weight,
    u.activity_level, u.goal, u.goal_weight, some (some target)⟩

/-- update_user from server.py. Recomputes the target, issues update_one on the
id, and treats modified_count == 0 as 404 User not found. Per Mongo semantics
modified_count is 0 both when no document matches and when the matched
document is unchanged by the $set; in either case the store is unchanged. On
success the route re-reads the document with find_one and returns it. The
result always carries the resulting store. -/
def update_user (store : Store) (user_id : String) (u : UserCreate) :
    Except HTTPError UserDoc × Store :=
  let newTarget := targetOf u
  match storeFind store user_id with
  | none => (.error ⟨404, "User not found"⟩, store)
  | some doc =>
      let newDoc := applySet doc u newTarget
      if newDoc = doc then
        (.error ⟨404, "User not found"⟩, store)
      else
        (.ok newDoc, storeReplace store user_id newDoc)

lemma storeFind_append_self (store : Store) (k : String) (d : UserDoc)
    (h : storeFind store k = none) :
    storeFind (store ++ [(k, d)]) k = some d := by
  induction store with
  | nil => simp [storeFind]
  | cons p rest ih =>
      obtain ⟨k', v⟩ := p
      by_cases hk : k' = k
      · simp [storeFind, hk] at h
      · simp only [List.cons_append, storeFind, if_neg hk] at h ⊢
        exact ih h

lemma storeFind_storeReplace (store : Store) (k : String) (d : UserDoc)
    (h : (storeFind store k).isSome) :
    storeFind (storeReplace store k d) k = some d := by
  induction store with
  | nil => simp [storeFind] at h
  | cons p rest ih =>
      obtain ⟨k', v⟩ := p
      by_cases hk : k' = k
      · simp [storeFind, storeReplace, hk]
      · simp only [storeFind, storeReplace, if_neg hk] at h ⊢
        exact ih h

/-- Claim C2: calculate_daily_calories multiplies bmr by the table factor
(sedentary 1.2, lightly_active 1.375, moderately_active 1.55, very_active
1.725, extra_active 1.9; 1.2 for any other activity level, without error),
then subtracts 500 for lose_weight, adds 500 for gain_weight, and leaves the
value unchanged for any other goal, including maintain_weight. Stated as
equality with a function written from the words of the claim. -/
theorem claimC2 (bmr : ℚ) (activity_level goal : String) :
    calculate_daily_calories bmr activity_level goal =
      dailyCaloriesFromSpec bmr activity_level goal := by
  unfold calculate_daily_calories dailyCaloriesFromSpec activity_multipliers
  simp only [List.lookup]
  repeat' split
  all_goals simp_all

/-- Claim C8: for fixed weight, height and age, the BMR with gender
case-insensitively equal to male exceeds the BMR for any other gender string
by exactly 166 (the age terms cancel; 5 - (-161) = 166). -/
theorem claimC8 (w h : ℚ) (a : ℤ) (g1 g2 : String)
    (h1 : strLower g1 = "male") (h2 : strLower g2 ≠ "male") :
    calculate_bmr w h a g1 - calculate_bmr w h a g2 = 166 := by
  unfold calculate_bmr
  rw [if_pos h1, if_neg h2]
  ring

/-- Witness for claim C8 at weight 68, height 165, age 28, genders Male and
female. -/
theorem claimC8_witness :
    calculate_bmr 68 165 28 "Male" - calculate_bmr 68 165 28 "female" = 166 :=
  claimC8 68 165 28 "Male" "female" (by decide) (by decide)

/-- Claim C1: on every create and on every successful update, the persisted
daily_calorie_target is exactly calculate_daily_calories applied to
calculate_bmr of the attributes submitted in that same request; it is not
client-suppliable (UserCreate has no such field) and is never left at a stored
value. -/
theorem claimC1 :
    (∀ (store : Store) (u : UserCreate) (newId : String),
      ((create_user store u newId).1).daily_calorie_target =
          some (some (calculate_daily_calories
            (calculate_bmr u.weight u.height u.age u.gender)
            u.activity_level u.goal)) ∧
      (storeFind store newId = none →
        storeFind (create_user store u newId).2 newId =
          some (create_user store u newId).1)) ∧
    (∀ (store : Store) (uid : String) (u : UserCreate) (d : UserDoc),
      (update_user store uid u).1 = .ok d →
        d.daily_calorie_target =
          some (some (calculate_daily_calories
            (calculate_bmr u.weight u.height u.age u.gender)
            u.activity_level u.goal)) ∧
        storeFind (update_user store uid u).2 uid = some d) := by
  constructor
  · intro store u newId
    exact ⟨rfl, fun h => storeFind_append_self store newId _ h⟩
  · intro store uid u d hupd
    cases hfind : storeFind store uid with
    | none => simp [update_user, hfind] at hupd
    | some doc =>
        by_cases hSame : applySet doc u (targetOf u) = doc
        · simp [update_user, hfind, hSame] at hupd
        · simp only [update_user, hfind, if_neg hSame] at hupd ⊢
          cases hupd
          refine ⟨rfl, ?_⟩
          exact storeFind_storeReplace store uid _ (by rw [hfind]; rfl)

/-- Sample profile-creation request used by the concrete witnesses (the one
exercised by backend_test.py). -/
def sampleCreate : UserCreate :=
  ⟨"Sarah Johnson", "sarah.johnson@email.com", 28, "female", 165, 68,
    "moderately_active", "lose_weight", some 63⟩

/-- Sample update request: changed weight and activity level. -/
def sampleUpdate : UserCreate :=
  ⟨"Sarah Johnson", "sarah.johnson@email.com", 28, "female", 165, 66,
    "very_active", "lose_weight", some 63⟩

/-- Store holding exactly the document created from sampleCreate. -/
def store1 : Store := (create_user [] sampleCreate "u1").2

/-- Document produced by applying the sampleUpdate $set to the stored sample
document. -/
def updatedDoc : UserDoc :=
  applySet (create_user [] sampleCreate "u1").1 sampleUpdate
    (targetOf sampleUpdate)

/-- Witness for claim C1: create and a successful update at concrete inputs. -/
theorem claimC1_witness :
    (((create_user [] sampleCreate "u1").1).daily_calorie_target =
        some (some (calculate_daily_calories
          (calculate_bmr sampleCreate.weight sampleCreate.height
            sampleCreate.age sampleCreate.gender)
          sampleCreate.activity_level sampleCreate.goal)) ∧
      storeFind (create_user [] sampleCreate "u1").2 "u1" =
        some (create_user [] sampleCreate "u1").1) ∧
    (updatedDoc.daily_calorie_target =
        some (some (calculate_daily_calories
          (calculate_bmr sampleUpdate.weight sampleUpdate.height
            sampleUpdate.age sampleUpdate.gender)
          sampleUpdate.activity_level sampleUpdate.goal)) ∧
      storeFind (update_user store1 "u1" sampleUpdate).2 "u1" =
        some updatedDoc) :=
  ⟨⟨(claimC1.1 [] sampleCreate "u1").1,
    (claimC1.1 [] sampleCreate "u1").2 rfl⟩,
    claimC1.2 store1 "u1" sampleUpdate updatedDoc (by rfl)⟩

/-- Claim C9: an update whose submitted attributes together with the
recomputed target reproduce the stored document verbatim modifies nothing
(Mongo modified_count is 0 for an identity $set), and update_user reports 404
User not found, because it reads a zero modified_count as an absent profile. -/
theorem claimC9 (store : Store) (uid : String) (u : UserCreate) (doc : UserDoc)
    (hfind : storeFind store uid = some doc)
    (hsame : applySet doc u (targetOf u) = doc) :
    update_user store uid u = (.error ⟨404, "User not found"⟩, store) := by
  simp [update_user, hfind, hsame]

/-- Witness for claim C9: re-submitting exactly the stored attributes of the
sample document yields 404 and an unchanged store. -/
theorem claimC9_witness :
    update_user store1 "u1" sampleCreate =
      (.error ⟨404, "User not found"⟩, store1) :=
  claimC9 store1 "u1" sampleCreate (create_user [] sampleCreate "u1").1
    (by rfl) (by rfl)

/-- The opening-brace character, written via its code point. -/
def braceOpen : Char := Char.ofNat 123

/-- The closing-brace character, written via its code point. -/
def braceClose : Char := Char.ofNat 125

/-- First index of a character in a list, as Python str.find returns it
(None modelled before the -1 conversion). -/
def pyFindAux (l : List Char) (c : Char) : Option Nat :=
  match l with
  | [] => none
  | a :: rest => if a = c then some 0 else (pyFindAux rest c).map (· + 1)

/-- Python str.find for a single character: first index, or -1 when absent. -/
def pyFindChar (l : List Char) (c : Char) : Int :=
  match pyFindAux l c with
  | some i => (i : Int)
  | none => -1

/-- Python str.rfind for a single character: last index, or -1 when absent. -/
def pyRFindChar (l : List Char) (c : Char) : Int :=
  match pyFindAux l.reverse c with
  | some i => ((l.length - 1 - i : Nat) : Int)
  | none => -1

/-- Python slice l[a:b] for the nonnegative indices this code produces
(negative values, which never reach the slice in the modelled branch, clamp
to 0 via Int.toNat). -/
def pySlice (l : List Char) (a b : Int) : List Char :=
  (l.take b.toNat).drop a.toNat

/-- The fixed fallback record built by analyze_food_image when no JSON object
can be extracted; analysis_text is the raw response embedded in
detailed_breakdown. -/
structure FallbackRecord where
  food_name : String
  calories : ℚ
  protein : ℚ
  carbs : ℚ
  fat : ℚ
  fiber : ℚ
  sodium : ℚ
  sugar : ℚ
  serving_size : String
  confidence : ℚ
  note : String
  analysis_text : String
deriving DecidableEq, Repr

/-- Result of the JSON-extraction step of analyze_food_image: either the
parsed mapping, returned verbatim, or a fallback record. Totality of
normalizeResponse is the never-raises property of the claim. -/
inductive NormalizeResult (J : Type) where
  | parsed (data : J)
  | fallback (r : FallbackRecord)
deriving DecidableEq

/-- Whether a NormalizeResult is the fallback branch. -/
def isFallback {J : Type} : NormalizeResult J → Bool
  | .parsed _ => false
  | .fallback _ => true

/-- The JSON-extraction step of analyze_food_image (server.py lines 182-232):
find the first opening brace and the last closing brace, slice, try to parse;
return the parsed mapping verbatim on success and a fixed fallback record
otherwise. The JSON parser is a parameter because the claims concern the
extraction logic, not the JSON grammar. Note end_idx is rfind + 1, so the
condition end_idx != -1 is always true; when the closing brace is absent the
slice is text[start:0] = empty, which no JSON parser accepts. -/
def normalizeResponse {J : Type} (parseJson : String → Option J)
    (response_text : String) : NormalizeResult J :=
  let chars := response_text.toList
  let start_idx := pyFindChar chars braceOpen
  let end_idx := pyRFindChar chars braceClose + 1
  if start_idx ≠ -1 ∧ end_idx ≠ -1 then
    match parseJson (String.mk (pySlice chars start_idx end_idx)) with
    | some parsed_data => .parsed parsed_data
    | none =>
        .fallback ⟨"Unknown food item", 200, 10, 20, 8, 3, 300, 5,
          "1 serving", 0.5,
          "Could not parse structured data, using defaults", response_text⟩
  else
    .fallback ⟨"Food item from image", 200, 10, 20, 8, 3, 300, 5,
      "1 serving", 0.5,
      "Structured analysis available in text format", response_text⟩

/-- The exact string the code would hand to json.loads: the slice from the
first opening brace to the last closing brace inclusive. -/
def extractedJsonSlice (text : String) : String :=
  String.mk
    (pySlice text.toList (pyFindChar text.toList braceOpen)
      (pyRFindChar text.toList braceClose + 1))

/-- Whether the text has a first opening brace and a last closing brace, the
pair the claim speaks about. -/
def hasBracePair (text : String) : Bool :=
  decide (pyFindChar text.toList braceOpen ≠ -1) &&
    decide (pyRFindChar text.toList braceClose ≠ -1)

lemma pyRFindChar_succ_nonneg (l : List Char) (c : Char) :
    0 ≤ pyRFindChar l c + 1 := by
  unfold pyRFindChar
  cases pyFindAux l.reverse c with
  | none => simp
  | some i => positivity

lemma pyRFindChar_succ_ne_neg_one (l : List Char) (c : Char) :
    pyRFindChar l c + 1 ≠ -1 := by
  have := pyRFindChar_succ_nonneg l c
  omega

lemma extractedJsonSlice_of_no_close (text : String)
    (hE : pyRFindChar text.toList braceClose = -1) :
    extractedJsonSlice text = String.mk [] := by
  unfold extractedJsonSlice
  rw [hE]
  norm_num [pySlice]

lemma normalizeResponse_eq {J : Type} (parseJson : String → Option J)
    (text : String) :
    normalizeResponse parseJson text =
      if pyFindChar text.toList braceOpen ≠ -1 then
        match parseJson (extractedJsonSlice text) with
        | some d => .parsed d
        | none =>
            .fallback ⟨"Unknown food item", 200, 10, 20, 8, 3, 300, 5,
              "1 serving", 0.5,
              "Could not parse structured data, using defaults", text⟩
      else
        .fallback ⟨"Food item from image", 200, 10, 20, 8, 3, 300, 5,
          "1 serving", 0.5,
          "Structured analysis available in text format", text⟩ := by
  unfold normalizeResponse extractedJsonSlice
  by_cases hS : pyFindChar text.toList braceOpen = -1
  · rw [if_neg (fun hc => hc.1 hS), if_neg (not_not_intro hS)]
  · rw [if_pos ⟨hS, pyRFindChar_succ_ne_neg_one text.toList braceClose⟩,
      if_pos hS]

/-- Claim C3: the JSON-extraction step of analyze_food_image returns the
parsed mapping verbatim whenever the slice from the first opening brace to the
last closing brace parses, and otherwise (parse failure, or no brace pair)
returns the fixed fallback record with calories 200, protein 10, carbs 20,
fat 8, fiber 3, sodium 300, sugar 5, serving_size 1 serving, confidence 0.5
and the raw text embedded as the diagnostic analysis_text. It never raises:
normalizeResponse is a total function and every non-parsed case lands in the
fallback branch. The hypothesis records that the JSON parser rejects the
empty string (true of json.loads), which covers the text-with-opening-brace-
but-no-closing-brace case, where the code slices text[start:0] = empty. -/
theorem claimC3 {J : Type} (parseJson : String → Option J) (text : String)
    (hempty : parseJson (String.mk []) = none) :
    (∀ j : J, hasBracePair text = true →
        parseJson (extractedJsonSlice text) = some j →
        normalizeResponse parseJson text = .parsed j) ∧
    ((hasBracePair text = false ∨ parseJson (extractedJsonSlice text) = none) →
        isFallback (normalizeResponse parseJson text) = true) ∧
    (∀ r, normalizeResponse parseJson text = .fallback r →
        r.calories = 200 ∧ r.protein = 10 ∧ r.carbs = 20 ∧ r.fat = 8 ∧
          r.fiber = 3 ∧ r.sodium = 300 ∧ r.sugar = 5 ∧
          r.serving_size = "1 serving" ∧ r.confidence = 0.5 ∧
          r.analysis_text = text) := by
  refine ⟨?_, ?_, ?_⟩
  · intro j hbp hp
    unfold hasBracePair at hbp
    simp only [Bool.and_eq_true, decide_eq_true_eq] at hbp
    rw [normalizeResponse_eq, if_pos hbp.1, hp]
  · intro hcase
    rw [normalizeResponse_eq]
    by_cases hS : pyFindChar text.toList braceOpen = -1
    · rw [if_neg (not_not_intro hS)]
      rfl
    · rw [if_pos hS]
      rcases hcase with hbp | hp
      · unfold hasBracePair at hbp
        simp only [Bool.and_eq_false_iff, decide_eq_false_iff_not, not_not]
          at hbp
        rcases hbp with hbp | hbp
        · exact absurd hbp hS
        · rw [extractedJsonSlice_of_no_close text hbp, hempty]
          rfl
      · rw [hp]
        rfl
  · intro r hr
    rw [normalizeResponse_eq] at hr
    by_cases hS : pyFindChar text.toList braceOpen = -1
    · rw [if_neg (not_not_intro hS)] at hr
      cases hr
      exact ⟨rfl, rfl, rfl, rfl, rfl, rfl, rfl, rfl, rfl, rfl⟩
    · rw [if_pos hS] at hr
      cases hps : parseJson (extractedJsonSlice text) with
      | some d => rw [hps] at hr; cases hr
      | none =>
          rw [hps] at hr
          cases hr
          exact ⟨rfl, rfl, rfl, rfl, rfl, rfl, rfl, rfl, rfl, rfl⟩

/-- Toy JSON parser for the C3 witness: accepts exactly the literal object
slice of the witness text. -/
def parseW : String → Option Nat :=
  fun s => if s = "\x7by\x7d" then some 7 else none

/-- Witness for claim C3: concrete text whose brace slice parses, yielding the
parsed value verbatim, and a concrete brace-free text yielding the fallback. -/
theorem claimC3_witness :
    normalizeResponse parseW "x\x7by\x7dz" = .parsed 7 ∧
      isFallback (normalizeResponse parseW "no json here") = true :=
  ⟨(claimC3 parseW "x\x7by\x7dz" (by decide)).1 7 (by decide) (by decide),
    (claimC3 parseW "no json here" (by decide)).2.1 (Or.inl (by decide))⟩

/-- Stored food-entry document (pydantic model FoodEntry in server.py), with
the fields the daily summary reads. Nutrient fields are Option (Option ℚ):
none = key absent, some none = JSON null (pydantic Optional fields default to
null, and an AI response may carry explicit nulls), some (some v) = number.
meal_type is none when the key is absent (entry.get defaults it to snack).
Remaining FoodEntry fields (food name, image, analysis payload, timestamps)
are not read by any claimed computation and are omitted. -/
structure EntryDoc where
  user_id : String
  date : String
  calories : Option (Option ℚ)
  protein : Option (Option ℚ)
  carbs : Option (Option ℚ)
  fat : Option (Option ℚ)
  fiber : Option (Option ℚ)
  meal_type : Option String
deriving DecidableEq, Repr

/-- Python dict.get(key, default) on a numeric field: the default only when
the key is absent; an explicit null comes back as None (modelled none), which
poisons any later arithmetic. -/
def pyGet (x : Option (Option ℚ)) (dflt : ℚ) : Option ℚ :=
  match x with
  | none => some dflt
  | some none => none
  | some (some v) => some v

/-- Python sum over a generator of values that may be None: starts at 0 and
raises TypeError (modelled none) as soon as a None participates. -/
def pySum (l : List (Option ℚ)) : Option ℚ :=
  l.foldl
    (fun acc x =>
      match acc, x with
      | some a, some b => some (a + b)
      | _, _ => none)
    (some 0)

/-- The consumed block of the daily summary. -/
structure ConsumedTotals where
  calories : ℚ
  protein : ℚ
  carbs : ℚ
  fat : ℚ
  fiber : ℚ
deriving DecidableEq, Repr

/-- The daily summary response document. remaining_calories is the calories
field of the nested remaining object; the four meals lists are the buckets of
the meal-type grouping. -/
structure DailySummary where
  date : String
  user_id : String
  daily_target : ℚ
  consumed : ConsumedTotals
  remaining_calories : ℚ
  meals_breakfast : List EntryDoc
  meals_lunch : List EntryDoc
  meals_dinner : List EntryDoc
  meals_snack : List EntryDoc
  entries_count : Nat
deriving DecidableEq, Repr

/-- get_daily_summary from server.py. The whole handler body sits in a try
whose except clause re-raises every exception as a 500 whose detail embeds the
original message; that converts the handler's own 404 into a 500 (the
HTTPException is itself an Exception), and likewise converts the TypeError
that Python's sum raises when a nutrient field is null. The date filter
defaults to the current date, passed in as today. Entries are matched on
user_id and the exact date string. An entry whose meal_type (defaulted to
snack when the key is absent) is not one of the four buckets is dropped from
the grouping but still counted in the totals. The exact TypeError message is
abbreviated to TypeError in the 500 detail; no claim depends on it. -/
def get_daily_summary (users : Store) (food_entries : List EntryDoc)
    (user_id : String) (date_filter : Option String) (today : String) :
    Except HTTPError DailySummary :=
  let df := date_filter.getD today
  match storeFind users user_id with
  | none =>
      .error ⟨500, "Failed to get daily summary: " ++
        strHTTP ⟨404, "User not found"⟩⟩
  | some user =>
      let entries := food_entries.filter
        (fun e => e.user_id == user_id && e.date == df)
      match pySum (entries.map fun e => pyGet e.calories 0),
          pySum (entries.map fun e => pyGet e.protein 0),
          pySum (entries.map fun e => pyGet e.carbs 0),
          pySum (entries.map fun e => pyGet e.fat 0),
          pySum (entries.map fun e => pyGet e.fiber 0),
          pyGet user.daily_calorie_target 2000 with
      | some total_calories, some total_protein, some total_carbs,
          some total_fat, some total_fiber, some daily_target =>
          .ok ⟨df, user_id, daily_target,
            ⟨total_calories, total_protein, total_carbs, total_fat,
              total_fiber⟩,
            max 0 (daily_target - total_calories),
            entries.filter (fun e => e.meal_type.getD "snack" == "breakfast"),
            entries.filter (fun e => e.meal_type.getD "snack" == "lunch"),
            entries.filter (fun e => e.meal_type.getD "snack" == "dinner"),
            entries.filter (fun e => e.meal_type.getD "snack" == "snack"),
            entries.length⟩
      | _, _, _, _, _, _ =>
          .error ⟨500, "Failed to get daily summary: TypeError"⟩

/-- Value a non-null nutrient field contributes to a total: the number when
present, 0 when the key is absent. -/
def fieldOrZero (x : Option (Option ℚ)) : ℚ :=
  match x with
  | some (some v) => v
  | _ => 0

lemma pyGet_ne_none (x : Option (Option ℚ)) (dflt : ℚ)
    (h : x ≠ some none) : pyGet x dflt ≠ none := by
  match x with
  | none => simp [pyGet]
  | some none => exact absurd rfl h
  | some (some v) => simp [pyGet]

lemma pyGet_getD_zero (x : Option (Option ℚ)) (h : x ≠ some none) :
    (pyGet x 0).getD 0 = fieldOrZero x := by
  match x with
  | none => rfl
  | some none => exact absurd rfl h
  | some (some v) => rfl

lemma pySum_go (l : List (Option ℚ)) (a : ℚ) (h : ∀ x ∈ l, x ≠ none) :
    l.foldl
      (fun acc x =>
        match acc, x with
        | some a, some b => some (a + b)
        | _, _ => none)
      (some a) = some (a + (l.map (fun o => o.getD 0)).sum) := by
  induction l generalizing a with
  | nil => simp
  | cons x xs ih =>
      cases x with
      | none => exact absurd rfl (h none (List.mem_cons_self _ _))
      | some b =>
          simp only [List.foldl_cons]
          rw [ih (a + b) (fun y hy => h y (List.mem_cons_of_mem _ hy))]
          simp [add_assoc]

lemma pySum_some (l : List (Option ℚ)) (h : ∀ x ∈ l, x ≠ none) :
    pySum l = some ((l.map (fun o => o.getD 0)).sum) := by
  unfold pySum
  rw [pySum_go l 0 h, zero_add]

lemma pySum_pyGet (l : List EntryDoc) (f : EntryDoc → Option (Option ℚ))
    (h : ∀ e ∈ l, f e ≠ some none) :
    pySum (l.map fun e => pyGet (f e) 0) =
      some ((l.map fun e => fieldOrZero (f e)).sum) := by
  rw [pySum_some (l.map fun e => pyGet (f e) 0) ?_, List.map_map]
  · exact congrArg _ (congrArg List.sum
      (List.map_congr_left fun e he => pyGet_getD_zero (f e) (h e he)))
  · intro x hx
    obtain ⟨e, he, rfl⟩ := List.mem_map.mp hx
    exact pyGet_ne_none (f e) 0 (h e he)

lemma get_daily_summary_ok (users : Store) (food_entries : List EntryDoc)
    (uid : String) (df : Option String) (today : String) (s : DailySummary)
    (h : get_daily_summary users food_entries uid df today = .ok s) :
    ∃ user, storeFind users uid = some user ∧
      pyGet user.daily_calorie_target 2000 = some s.daily_target ∧
      pySum ((food_entries.filter
          (fun e => e.user_id == uid && e.date == df.getD today)).map
        fun e => pyGet e.calories 0) = some s.consumed.calories ∧
      s.remaining_calories = max 0 (s.daily_target - s.consumed.calories) := by
  simp only [get_daily_summary] at h
  cases hu : storeFind users uid with
  | none => simp only [hu] at h; cases h
  | some user =>
      simp only [hu] at h
      refine ⟨user, rfl, ?_⟩
      cases h1 : pySum ((food_entries.filter
          (fun e => e.user_id == uid && e.date == df.getD today)).map
        fun e => pyGet e.calories 0) with
      | none => simp only [h1] at h; cases h
      | some tc =>
          simp only [h1] at h
          cases h2 : pySum ((food_entries.filter
              (fun e => e.user_id == uid && e.date == df.getD today)).map
            fun e => pyGet e.protein 0) with
          | none => simp only [h2] at h; cases h
          | some tp =>
              simp only [h2] at h
              cases h3 : pySum ((food_entries.filter
                  (fun e => e.user_id == uid && e.date == df.getD today)).map
                fun e => pyGet e.carbs 0) with
              | none => simp only [h3] at h; cases h
              | some tcb =>
                  simp only [h3] at h
                  cases h4 : pySum ((food_entries.filter
                      (fun e => e.user_id == uid &&
                        e.date == df.getD today)).map
                    fun e => pyGet e.fat 0) with
                  | none => simp only [h4] at h; cases h
                  | some tf =>
                      simp only [h4] at h
                      cases h5 : pySum ((food_entries.filter
                          (fun e => e.user_id == uid &&
                            e.date == df.getD today)).map
                        fun e => pyGet e.fiber 0) with
                      | none => simp only [h5] at h; cases h
                      | some tfb =>
                          simp only [h5] at h
                          cases h6 : pyGet user.daily_calorie_target 2000 with
                          | none => simp only [h6] at h; cases h
                          | some dt =>
                              simp only [h6] at h
                              cases h
                              exact ⟨rfl, rfl, rfl⟩

/-- Food entry with an explicit null protein field (as stored when the AI
response carries a JSON null): the input refuting claim C4 as stated. -/
def badEntry : EntryDoc :=
  ⟨"u1", "2026-01-01", some (some 300), some none, none, none, none,
    some "lunch"⟩

/-- Counterexample for claim C4: with one matched entry whose protein is an
explicit null, the daily summary does not report totals at all — Python sum
raises TypeError on None and the handler returns a 500 — so the null field
does not contribute zero as the claim states. -/
theorem claimC4_counterexample :
    get_daily_summary store1 [badEntry] "u1" (some "2026-01-01")
      "2026-01-01" =
      .error ⟨500, "Failed to get daily summary: TypeError"⟩ := by
  rfl

/-- Claim C4 as amended: when every nutrient field of every matched entry is
either absent or a number (no explicit nulls), the consumed totals equal the
sums over the matched entries with absent fields contributing zero; an
explicit null instead fails the whole summary (see the counterexample). The
daily_calorie_target hypothesis excludes the unrelated failure of a stored
null target, which also aborts the handler before any total is reported. -/
theorem claimC4_amended (users : Store) (food_entries : List EntryDoc)
    (uid : String) (df : Option String) (today : String) (user : UserDoc)
    (hu : storeFind users uid = some user)
    (ht : user.daily_calorie_target ≠ some none)
    (hnn : ∀ e ∈ food_entries.filter
        (fun e => e.user_id == uid && e.date == df.getD today),
      e.calories ≠ some none ∧ e.protein ≠ some none ∧
        e.carbs ≠ some none ∧ e.fat ≠ some none ∧ e.fiber ≠ some none) :
    (get_daily_summary users food_entries uid df today).map
        (fun s => s.consumed) =
      .ok ⟨((food_entries.filter
            (fun e => e.user_id == uid && e.date == df.getD today)).map
          fun e => fieldOrZero e.calories).sum,
        ((food_entries.filter
            (fun e => e.user_id == uid && e.date == df.getD today)).map
          fun e => fieldOrZero e.protein).sum,
        ((food_entries.filter
            (fun e => e.user_id == uid && e.date == df.getD today)).map
          fun e => fieldOrZero e.carbs).sum,
        ((food_entries.filter
            (fun e => e.user_id == uid && e.date == df.getD today)).map
          fun e => fieldOrZero e.fat).sum,
        ((food_entries.filter
            (fun e => e.user_id == uid && e.date == df.getD today)).map
          fun e => fieldOrZero e.fiber).sum⟩ := by
  have hc := pySum_pyGet _ (fun e => e.calories)
    (fun e he => (hnn e he).1)
  have hp := pySum_pyGet _ (fun e => e.protein)
    (fun e he => (hnn e he).2.1)
  have hcb := pySum_pyGet _ (fun e => e.carbs)
    (fun e he => (hnn e he).2.2.1)
  have hf := pySum_pyGet _ (fun e => e.fat)
    (fun e he => (hnn e he).2.2.2.1)
  have hfb := pySum_pyGet _ (fun e => e.fiber)
    (fun e he => (hnn e he).2.2.2.2)
  have htgt : ∃ t, pyGet user.daily_calorie_target 2000 = some t := by
    match hx : user.daily_calorie_target with
    | none => exact ⟨2000, rfl⟩
    | some none => exact absurd hx ht
    | some (some v) => exact ⟨v, rfl⟩
  obtain ⟨t, htgt⟩ := htgt
  simp only [get_daily_summary, hu, hc, hp, hcb, hf, hfb, htgt, Except.map]

/-- Witness for claim C4 amended: the sample user with one breakfast entry
(300 kcal, absent protein/carbs/fat/fiber) and one lunch entry (500 kcal,
12 g protein): totals are 800 kcal and 12 g protein, absent fields count 0. -/
theorem claimC4_witness :
    (get_daily_summary store1
        [⟨"u1", "2026-01-01", some (some 300), none, none, none, none,
          some "breakfast"⟩,
         ⟨"u1", "2026-01-01", some (some 500), some (some 12), none, none,
          none, some "lunch"⟩]
        "u1" (some "2026-01-01") "2026-01-01").map (fun s => s.consumed) =
      .ok ⟨800, 12, 0, 0, 0⟩ := by
  have := claimC4_amended store1
    [⟨"u1", "2026-01-01", some (some 300), none, none, none, none,
      some "breakfast"⟩,
     ⟨"u1", "2026-01-01", some (some 500), some (some 12), none, none,
      none, some "lunch"⟩]
    "u1" (some "2026-01-01") "2026-01-01"
    (create_user [] sampleCreate "u1").1 (by rfl) (by decide)
    (by decide)
  rw [this]
  norm_num [fieldOrZero]

/-- Extreme but schema-valid profile request (weight and height positive, age
nonnegative, enumerations valid) whose computed daily calorie target is
negative: BMR is 10 + 6.25 - 500 - 161 = -644.75, target is
-644.75 * 1.2 - 500 = -1273.7. -/
def extremeCreate : UserCreate :=
  ⟨"X", "x@example.com", 100, "female", 1, 1, "sedentary", "lose_weight",
    none⟩

/-- Store holding the profile created from extremeCreate. -/
def storeExtreme : Store := (create_user [] extremeCreate "u1").2

/-- Counterexample for claim C5: for the stored (negative) target -1273.7 and
an empty entry set, the summary succeeds with remaining calories 0, which is
not the daily target, refuting the for-an-empty-entry-set-it-equals-the-
target clause of the claim; the clamp at zero hides negative targets. -/
theorem claimC5_counterexample :
    (get_daily_summary storeExtreme [] "u1" (some "2026-01-01")
        "2026-01-01").map
        (fun s => (s.daily_target, s.consumed.calories,
          s.remaining_calories)) =
      .ok (-1273.7, 0, 0) ∧ (0 : ℚ) ≠ -1273.7 := by
  have htv : targetOf extremeCreate = -1273.7 := by
    simp only [targetOf, calculate_daily_calories, calculate_bmr,
      extremeCreate, activity_multipliers]
    rw [if_neg (by decide : ¬ strLower "female" = "male")]
    norm_num [List.lookup]
  have h : get_daily_summary storeExtreme [] "u1" (some "2026-01-01")
      "2026-01-01" =
      .ok ⟨"2026-01-01", "u1", targetOf extremeCreate, ⟨0, 0, 0, 0, 0⟩,
        max 0 (targetOf extremeCreate - 0), [], [], [], [], 0⟩ := rfl
  rw [h]
  refine ⟨?_, by norm_num⟩
  simp only [Except.map, htv]
  rw [sub_zero, max_eq_left (by norm_num : (-1273.7 : ℚ) ≤ 0)]

/-- Claim C5 as amended: whenever the daily summary succeeds, remaining
calories equals max 0 (daily target - consumed calories), hence is never
negative; for an empty matched-entry set consumed calories is 0 and remaining
equals max 0 (daily target) — which is the target itself exactly when the
target is nonnegative (see the counterexample for a negative target). -/
theorem claimC5_amended (users : Store) (food_entries : List EntryDoc)
    (uid : String) (df : Option String) (today : String) (s : DailySummary)
    (h : get_daily_summary users food_entries uid df today = .ok s) :
    s.remaining_calories = max 0 (s.daily_target - s.consumed.calories) ∧
      0 ≤ s.remaining_calories ∧
      (food_entries.filter
          (fun e => e.user_id == uid && e.date == df.getD today) = [] →
        s.consumed.calories = 0 ∧
          s.remaining_calories = max 0 s.daily_target) := by
  obtain ⟨user, -, -, hsum, hrem⟩ :=
    get_daily_summary_ok users food_entries uid df today s h
  refine ⟨hrem, hrem ▸ le_max_left 0 _, ?_⟩
  intro hemp
  rw [hemp] at hsum
  have hc0 : s.consumed.calories = 0 := by
    have : pySum [] = some (0 : ℚ) := rfl
    rw [List.map_nil] at hsum
    rw [this] at hsum
    exact (Option.some_injective ℚ hsum).symm
  exact ⟨hc0, by rw [hrem, hc0, sub_zero]⟩

/-- Witness for claim C5 amended: sample user, no entries. -/
theorem claimC5_witness :
    (⟨"2026-01-01", "u1", targetOf sampleCreate, ⟨0, 0, 0, 0, 0⟩,
        max 0 (targetOf sampleCreate - 0), [], [], [], [],
        0⟩ : DailySummary).remaining_calories =
      max 0 ((⟨"2026-01-01", "u1", targetOf sampleCreate, ⟨0, 0, 0, 0, 0⟩,
          max 0 (targetOf sampleCreate - 0), [], [], [], [],
          0⟩ : DailySummary).daily_target -
        (⟨"2026-01-01", "u1", targetOf sampleCreate, ⟨0, 0, 0, 0, 0⟩,
          max 0 (targetOf sampleCreate - 0), [], [], [], [],
          0⟩ : DailySummary).consumed.calories) ∧
      (0 : ℚ) ≤ (⟨"2026-01-01", "u1", targetOf sampleCreate, ⟨0, 0, 0, 0, 0⟩,
          max 0 (targetOf sampleCreate - 0), [], [], [], [],
          0⟩ : DailySummary).remaining_calories := by
  have := claimC5_amended store1 [] "u1" (some "2026-01-01") "2026-01-01"
    ⟨"2026-01-01", "u1", targetOf sampleCreate, ⟨0, 0, 0, 0, 0⟩,
      max 0 (targetOf sampleCreate - 0), [], [], [], [], 0⟩ (by rfl)
  exact ⟨this.1, this.2.1⟩

/-- Claim C10: when the stored profile document lacks the
daily_calorie_target key entirely, a successful daily summary reports 2000 as
the daily target and computes remaining calories against 2000. -/
theorem claimC10 (users : Store) (food_entries : List EntryDoc)
    (uid : String) (df : Option String) (today : String) (user : UserDoc)
    (s : DailySummary)
    (hu : storeFind users uid = some user)
    (hnone : user.daily_calorie_target = none)
    (h : get_daily_summary users food_entries uid df today = .ok s) :
    s.daily_target = 2000 ∧
      s.remaining_calories = max 0 (2000 - s.consumed.calories) := by
  obtain ⟨user2, hu2, htgt, -, hrem⟩ :=
    get_daily_summary_ok users food_entries uid df today s h
  rw [hu] at hu2
  cases hu2
  rw [hnone] at htgt
  have h2000 : s.daily_target = 2000 := by
    have : pyGet none 2000 = some (2000 : ℚ) := rfl
    rw [this] at htgt
    exact (Option.some_injective ℚ htgt).symm
  exact ⟨h2000, h2000 ▸ hrem⟩

/-- Stored user document lacking the daily_calorie_target key. -/
def userNoTarget : UserDoc :=
  ⟨"u2", "NoTarget", "n@example.com", 30, "other", 170, 70, "sedentary",
    "maintain_weight", none, none⟩

/-- Witness for claim C10: user without a stored target, empty day; the
summary reports target 2000 and computes remaining against 2000. -/
theorem claimC10_witness :
    (⟨"2026-01-01", "u2", 2000, ⟨0, 0, 0, 0, 0⟩, max 0 (2000 - 0),
        [], [], [], [], 0⟩ : DailySummary).daily_target = 2000 ∧
      (⟨"2026-01-01", "u2", 2000, ⟨0, 0, 0, 0, 0⟩, max 0 (2000 - 0),
        [], [], [], [], 0⟩ : DailySummary).remaining_calories =
        max 0 (2000 -
          (⟨"2026-01-01", "u2", 2000, ⟨0, 0, 0, 0, 0⟩, max 0 (2000 - 0),
            [], [], [], [], 0⟩ : DailySummary).consumed.calories) :=
  claimC10 [("u2", userNoTarget)] [] "u2" (some "2026-01-01") "2026-01-01"
    userNoTarget
    ⟨"2026-01-01", "u2", 2000, ⟨0, 0, 0, 0, 0⟩, max 0 (2000 - 0),
      [], [], [], [], 0⟩
    (by rfl) (by rfl) (by rfl)

/-- Stored meal-plan document (pydantic model MealPlan in server.py). The
meal lists and totals are built from the parsed AI JSON; since the claims
about this route concern only the extraction/failure behaviour, the parsed
payload is kept abstract as J and the per-field defaulting of the builder is
folded into it. -/
structure MealPlanDoc (J : Type) where
  user_id : String
  date : String
  data : J
deriving DecidableEq, Repr

/-- Status code of an Except result, none on success. -/
def errStatus {α : Type} : Except HTTPError α → Option Nat
  | .error e => some e.status
  | .ok _ => none

/-- generate_meal_plan from server.py (lines 414-505), from the point where
the AI response text is in hand (prompt construction and the LLM call are
external). The whole body sits in a try whose except clause re-raises every
exception as a 500 embedding the original message, so the handler's own 404
(unknown user) and its explicit 500 (no brace pair) are both re-wrapped, and
a json.loads failure on the brace slice (uncaught at the call site, modelled
by parseJson returning none) surfaces as a 500 carrying the JSONDecodeError
message (abbreviated here). On success a MealPlanDoc is appended to the
meal_plans collection; on every failure the collection is returned unchanged
(nothing is persisted). The strptime of target_date is not modelled; it can
only fail on a malformed date string, which no claim exercises. The brace
condition and slice are the same extraction as in normalizeResponse;
extractedJsonSlice is that slice by definition. -/
def generate_meal_plan {J : Type} (parseJson : String → Option J)
    (users : Store) (meal_plans : List (MealPlanDoc J))
    (user_id target_date response_text : String) :
    Except HTTPError (MealPlanDoc J) × List (MealPlanDoc J) :=
  match storeFind users user_id with
  | none =>
      (.error ⟨500, "Failed to generate meal plan: " ++
        strHTTP ⟨404, "User not found"⟩⟩, meal_plans)
  | some _user =>
      if pyFindChar response_text.toList braceOpen ≠ -1 ∧
          pyRFindChar response_text.toList braceClose + 1 ≠ -1 then
        match parseJson (extractedJsonSlice response_text) with
        | some d =>
            (.ok ⟨user_id, target_date, d⟩,
              meal_plans ++ [⟨user_id, target_date, d⟩])
        | none =>
            (.error ⟨500,
              "Failed to generate meal plan: JSONDecodeError"⟩, meal_plans)
      else
        (.error ⟨500, "Failed to generate meal plan: " ++
          strHTTP ⟨500, "Failed to parse meal plan response"⟩⟩, meal_plans)

/-- Claim C7: when the brace-finding extraction yields no parseable JSON
object (no brace pair, or the slice fails to parse — including the empty
slice when the closing brace is missing), meal-plan generation for an
existing user fails with a 500 server error and appends nothing to the
meal-plans collection; there is no structured fallback as in food-image
analysis. -/
theorem claimC7 {J : Type} (parseJson : String → Option J) (users : Store)
    (plans : List (MealPlanDoc J)) (uid td text : String) (user : UserDoc)
    (huser : storeFind users uid = some user)
    (hempty : parseJson (String.mk []) = none)
    (hfail : hasBracePair text = false ∨
      parseJson (extractedJsonSlice text) = none) :
    errStatus (generate_meal_plan parseJson users plans uid td text).1 =
        some 500 ∧
      (generate_meal_plan parseJson users plans uid td text).2 = plans := by
  simp only [generate_meal_plan, huser]
  by_cases hS : pyFindChar text.toList braceOpen = -1
  · rw [if_neg (fun hc => hc.1 hS)]
    exact ⟨rfl, rfl⟩
  · rw [if_pos ⟨hS, pyRFindChar_succ_ne_neg_one text.toList braceClose⟩]
    rcases hfail with hbp | hp
    · unfold hasBracePair at hbp
      simp only [Bool.and_eq_false_iff, decide_eq_false_iff_not, not_not]
        at hbp
      rcases hbp with hbp | hbp
      · exact absurd hbp hS
      · rw [extractedJsonSlice_of_no_close text hbp, hempty]
        exact ⟨rfl, rfl⟩
    · rw [hp]
      exact ⟨rfl, rfl⟩

/-- Witness for claim C7: a parser that rejects everything, the sample user,
and a brace-free response text. -/
theorem claimC7_witness :
    errStatus (generate_meal_plan (fun _ => (none : Option Unit)) store1 []
        "u1" "2026-01-01" "no json").1 = some 500 ∧
      (generate_meal_plan (fun _ => (none : Option Unit)) store1 [] "u1"
        "2026-01-01" "no json").2 = [] :=
  claimC7 (fun _ => (none : Option Unit)) store1 [] "u1" "2026-01-01"
    "no json" (create_user [] sampleCreate "u1").1 (by rfl) rfl (Or.inr rfl)

/-- Claim C6 evaluated (code-bug record): with an unknown profile id, fetch
and update do surface the 404 User not found, but the daily summary and
meal-plan generation raise their 404 inside try blocks whose blanket except
re-raises a 500 wrapping the message, so the client sees a generic server
error for those two routes, contradicting the claim. -/
theorem claimC6_eval :
    get_user [] "missing" = .error ⟨404, "User not found"⟩ ∧
      (update_user [] "missing" sampleCreate).1 =
        .error ⟨404, "User not found"⟩ ∧
      get_daily_summary [] [] "missing" (some "2026-01-01") "2026-01-01" =
        .error ⟨500, "Failed to get daily summary: 404: User not found"⟩ ∧
      (generate_meal_plan (fun _ => (none : Option Unit)) [] [] "missing"
          "2026-01-01" "").1 =
        .error ⟨500, "Failed to generate meal plan: 404: User not found"⟩ :=
  ⟨rfl, rfl, rfl, rfl⟩
